import Mathlib

/-!
Verification development for the sretoolbox container-registry client
(`sretoolbox/container/image.py` and `sretoolbox/utils/retry.py`).

The Python source is shallowly embedded: the reference-parsing regex is
embedded as an explicit backtracking matcher with `re.search` semantics
(leftmost starting position, greedy quantifiers, conditional groups),
restricted to ASCII inputs (`\w` is modelled as ASCII alphanumeric or
underscore, which agrees with Python on all ASCII strings); the
HTTP-facing operations are embedded as pure functions over an explicit
network oracle, returning `Except` values where the Python code raises,
and logging issued requests so that statements about request traffic can
be made.
-/

namespace Sretoolbox

/-- Tries `f` on each element of `l` in order, returning the first success.
This is the backtracking combinator used to model greedy regex
quantifiers: the candidate list is ordered the way the Python `re`
engine explores alternatives. -/
def firstSome {α β : Type} : List α → (α → Option β) → Option β
  | [], _ => none
  | a :: as, f => (f a).orElse fun _ => firstSome as f

/-- `listStartsWith pre l` is true iff `pre` is a prefix of `l`. -/
def listStartsWith : List Char → List Char → Bool
  | [], _ => true
  | _ :: _, [] => false
  | a :: as, b :: bs => a == b && listStartsWith as bs

/-- Python's substring test `needle in hay`. -/
def listContainsSub (hay needle : List Char) : Bool :=
  match hay with
  | [] => needle.isEmpty
  | _ :: t => listStartsWith needle hay || listContainsSub t needle

/-- Python's `needle in hay` on strings. -/
def strContainsSub (hay needle : String) : Bool :=
  listContainsSub hay.data needle.data

/-- Candidate lengths for a greedy `+` quantifier whose maximal munch is
`n`: the engine tries `n, n-1, ..., 1`. -/
def greedyLens (n : Nat) : List Nat := (List.range n).map fun i => n - i

/-- Length of the maximal run of characters satisfying `p`. -/
def runLen (p : Char → Bool) (cs : List Char) : Nat := (cs.takeWhile p).length

/-! ## The reference-parser regex of `Image._parse_image_url`

The source pattern (Python `re`, searched with `re.search`, `$`-anchored):

    (?P<scheme>\w+://)?
    (?P<registry>[\w\-]+[.][\w\-.]+)?
    (?(registry)(?P<port_colon>[:]))?
    (?(port_colon)(?P<port>[0-9]+))
    (?(registry)(?P<registry_slash>/))
    (?P<repository>[\w\-]+)?
    (?(repository)(?P<repo_slash>/))
    (?P<image>[\w\-.]+)
    (?P<digest_at>@)?
    (?(digest_at)(?P<digest>sha256:[0-9a-f]{64}))
    (?(digest)|(?P<tag_colon>:))?
    (?(tag_colon)(?P<tag>[\w\-.]+))
    $
-/

/-- Python `\w` on ASCII input. -/
def isWordChar (c : Char) : Bool := c.isAlphanum || c == '_'

/-- The character class `[\w\-]`. -/
def isClassW (c : Char) : Bool := isWordChar c || c == '-'

/-- The character class `[\w\-.]`. -/
def isClassWD (c : Char) : Bool := isWordChar c || c == '-' || c == '.'

/-- The character class `[0-9]`. -/
def isDigitChar (c : Char) : Bool := c.isDigit

/-- The character class `[0-9a-f]` (lowercase hex). -/
def isLowerHex (c : Char) : Bool := c.isDigit || ('a' ≤ c && c ≤ 'f')

/-- The `groupdict()` of a successful match of the pattern: one field per
named capture group that `_parse_image_url` reads. -/
structure RawMatch where
  scheme : Option String
  registry : Option String
  port : Option String
  repository : Option String
  image : String
  digest : Option String
  tag : Option String
deriving Repr, DecidableEq

/-- Final `$` anchor: succeeds exactly at the end of the input. -/
def mEnd (sch reg port repo : Option String) (img : String)
    (dig tag : Option String) (cs : List Char) : Option RawMatch :=
  if cs.isEmpty then some ⟨sch, reg, port, repo, img, dig, tag⟩ else none

/-- `(?(tag_colon)(?P<tag>[\w\-.]+))` then `$`. -/
def mTag (sch reg port repo : Option String) (img : String)
    (dig : Option String) (tagColon : Bool) (cs : List Char) : Option RawMatch :=
  if tagColon then
    firstSome (greedyLens (runLen isClassWD cs)) fun k =>
      mEnd sch reg port repo img dig (some (String.mk (cs.take k))) (cs.drop k)
  else
    mEnd sch reg port repo img dig none cs

/-- `(?(digest)|(?P<tag_colon>:))?`: with a digest the group matches
empty; otherwise the engine first tries to consume a `:` (setting
`tag_colon`), then the empty alternative. -/
def mTagColon (sch reg port repo : Option String) (img : String)
    (dig : Option String) (cs : List Char) : Option RawMatch :=
  match dig with
  | some _ => mTag sch reg port repo img dig false cs
  | none =>
    (match cs with
     | ':' :: rest => mTag sch reg port repo img dig true rest
     | _ => none).orElse fun _ => mTag sch reg port repo img dig false cs

/-- `(?(digest_at)(?P<digest>sha256:[0-9a-f]{64}))`: if `@` was consumed,
require the literal `sha256:` followed by exactly 64 lowercase hex
characters. -/
def mDigest (sch reg port repo : Option String) (img : String)
    (digAt : Bool) (cs : List Char) : Option RawMatch :=
  if digAt then
    if listStartsWith "sha256:".data cs then
      let hex := (cs.drop 7).take 64
      if hex.length = 64 && hex.all isLowerHex then
        mTagColon sch reg port repo img
          (some (String.mk ("sha256:".data ++ hex))) (cs.drop 71)
      else none
    else none
  else mTagColon sch reg port repo img none cs

/-- `(?P<digest_at>@)?`: greedy optional `@`. -/
def mDigestAt (sch reg port repo : Option String) (img : String)
    (cs : List Char) : Option RawMatch :=
  (match cs with
   | '@' :: rest => mDigest sch reg port repo img true rest
   | _ => none).orElse fun _ => mDigest sch reg port repo img false cs

/-- `(?P<image>[\w\-.]+)`: mandatory, greedy. -/
def mImage (sch reg port repo : Option String) (cs : List Char) : Option RawMatch :=
  firstSome (greedyLens (runLen isClassWD cs)) fun k =>
    mDigestAt sch reg port repo (String.mk (cs.take k)) (cs.drop k)

/-- `(?P<repository>[\w\-]+)?(?(repository)(?P<repo_slash>/))`: greedy
optional repository, and if present a mandatory `/` after it. -/
def mRepository (sch reg port : Option String) (cs : List Char) : Option RawMatch :=
  (firstSome (greedyLens (runLen isClassW cs)) fun k =>
    match cs.drop k with
    | '/' :: rest => mImage sch reg port (some (String.mk (cs.take k))) rest
    | _ => none).orElse fun _ => mImage sch reg port none cs

/-- `(?(registry)(?P<port_colon>[:]))?(?(port_colon)(?P<port>[0-9]+))`
`(?(registry)(?P<registry_slash>/))`: after a matched registry, the
engine first tries `:` + digits + `/`, then no port + `/`. -/
def mPortAndSlash (sch : Option String) (regStr : String)
    (cs : List Char) : Option RawMatch :=
  (match cs with
   | ':' :: rest =>
     firstSome (greedyLens (runLen isDigitChar rest)) fun k =>
       match rest.drop k with
       | '/' :: rest2 =>
         mRepository sch (some regStr) (some (String.mk (rest.take k))) rest2
       | _ => none
   | _ => none).orElse fun _ =>
    match cs with
    | '/' :: rest => mRepository sch (some regStr) none rest
    | _ => none

/-- `(?P<registry>[\w\-]+[.][\w\-.]+)?`: greedy optional registry; both
`+` runs are explored longest-first. -/
def mRegistry (sch : Option String) (cs : List Char) : Option RawMatch :=
  (firstSome (greedyLens (runLen isClassW cs)) fun a =>
    match cs.drop a with
    | '.' :: rest =>
      firstSome (greedyLens (runLen isClassWD rest)) fun b =>
        mPortAndSlash sch (String.mk (cs.take a ++ '.' :: rest.take b))
          (rest.drop b)
    | _ => none).orElse fun _ => mRepository sch none none cs

/-- `(?P<scheme>\w+://)?` then the rest of the pattern, attempted at a
fixed starting position. -/
def matchAt (cs : List Char) : Option RawMatch :=
  (firstSome (greedyLens (runLen isWordChar cs)) fun k =>
    if listStartsWith "://".data (cs.drop k) then
      mRegistry (some (String.mk (cs.take k ++ "://".data))) (cs.drop (k + 3))
    else none).orElse fun _ => mRegistry none cs

/-- `re.search`: try every starting position from the left, returning
the first position where the (end-anchored) pattern matches. -/
def searchFrom : List Char → Option RawMatch
  | [] => matchAt []
  | c :: cs => (matchAt (c :: cs)).orElse fun _ => searchFrom cs

/-- `re.search(pattern, image_url)` of `Image._parse_image_url`. -/
def pySearch (s : String) : Option RawMatch := searchFrom s.data

/-- The data structure `_parse_image_url` returns: the groupdict after
defaults are filled in. -/
structure ImageData where
  scheme : String
  registry : String
  repository : Option String
  image : String
  tag : Option String
  digest : Option String
deriving Repr, DecidableEq

/-- The default-filling steps of `_parse_image_url` after a successful
regex match: default scheme `docker://`, default registry `docker.io`,
port appended to the registry, repository defaulted to `library` only
for registry `docker.io`, and tag defaulted to `latest` when neither a
tag nor a digest was given. -/
def fillDefaults (g : RawMatch) : ImageData :=
  let scheme := g.scheme.getD "docker://"
  let registry0 := g.registry.getD "docker.io"
  let registry := match g.port with
    | some p => registry0 ++ ":" ++ p
    | none => registry0
  let repository := match g.repository with
    | some r => some r
    | none => if registry = "docker.io" then some "library" else none
  let tag := if g.tag.isNone && g.digest.isNone then some "latest" else g.tag
  ⟨scheme, registry, repository, g.image, tag, g.digest⟩

/-- `Image._parse_image_url`: `none` models the `AttributeError` raised
when the regex does not match anywhere in the string. -/
def parseImageUrl (s : String) : Option ImageData := (pySearch s).map fillDefaults

/-- `Image.url_tag`: fails with `NoTagForImageByDigest` when the
reference has no tag; otherwise `registry[/repository]/image:tag`. -/
def urlTag (d : ImageData) : Except String String :=
  match d.tag with
  | none => .error "NoTagForImageByDigest"
  | some t => .ok (d.registry ++
      (match d.repository with
       | some r => "/" ++ r
       | none => "") ++
      "/" ++ d.image ++ ":" ++ t)

/-- `Image.digest`: when `_cache_digest` was pre-populated (the
by-digest constructor case) it is returned without fetching the
manifest; otherwise the manifest is fetched once and its
`Docker-Content-Digest` header is used, with an `HTTPError` when the
header is absent. `headerDigest` is the header the fetch would produce;
the `Nat` counts manifest fetches performed. -/
def digestProperty (cacheDigest headerDigest : Option String) :
    Except String String × Nat :=
  match cacheDigest with
  | some d => (.ok d, 0)
  | none =>
    match headerDigest with
    | some d => (.ok d, 1)
    | none => (.error "Docker-Content-Digest header not found.", 1)

/-! ## Media types and manifest model -/

def SCHEMA1_MANIFEST_MEDIA_TYPE : String :=
  "application/vnd.docker.distribution.manifest.v1+json"

def SCHEMA1_SIGNED_MANIFEST_MEDIA_TYPE : String :=
  "application/vnd.docker.distribution.manifest.v1+prettyjws"

def SCHEMA2_MANIFEST_MEDIA_TYPE : String :=
  "application/vnd.docker.distribution.manifest.v2+json"

def SCHEMA2_MANIFEST_LIST_MEDIA_TYPE : String :=
  "application/vnd.docker.distribution.manifest.list.v2+json"

def OCI_MANIFEST_MEDIA_TYPE : String := "application/vnd.oci.image.manifest.v1+json"

def OCI_IMAGE_INDEX_MEDIA_TYPE : String := "application/vnd.oci.image.index.v1+json"

def SINGLE_ARCH_MEDIA_TYPES : List String :=
  [SCHEMA2_MANIFEST_MEDIA_TYPE, OCI_MANIFEST_MEDIA_TYPE]

def MULTI_ARCH_MEDIA_TYPES : List String :=
  [SCHEMA2_MANIFEST_LIST_MEDIA_TYPE, OCI_IMAGE_INDEX_MEDIA_TYPE]

/-- One entry of a multi-arch manifest's `manifests` array. The
`digest` field is what `is_part_of` reads; `rest` stands for the
remaining JSON fields (mediaType, size, platform), which participate in
whole-entry equality in `__eq__`. -/
structure ManifestEntry where
  digest : String
  rest : String
deriving Repr, DecidableEq

/-- A manifest JSON body, restricted to the keys the embedded operations
read. `fsLayers` and `layers` entries are kept opaque (serialized JSON)
because only whole-entry equality is applied to them. -/
structure Manifest where
  schemaVersion : Nat
  fsLayers : List String
  layers : List String
  manifests : List ManifestEntry
deriving Repr, DecidableEq

/-- The exceptions of `sretoolbox.container.image` relevant here. -/
inductive ImgError where
  | httpError (msg : String)
  | imageComparisonError (msg : String)
  | imageContainsError (msg : String)
deriving Repr, DecidableEq

/-- The outcome of `Image.manifest` for one image: an `HTTPError`
message, or the manifest body paired with the cached `Content-Type`
header. -/
abbrev ManifestFetch := Except String (Manifest × Option String)

/-- The `content_type` property on an already-fetched image: returns the
cached `Content-Type` header, raising `HTTPError` when it was absent. -/
def contentTypeProp : Option String → Except ImgError String
  | some c => .ok c
  | none => .error (.httpError "Content-Type header not found.")

/-- `Image.__eq__`: fetch both manifests (an `HTTPError` becomes
`ImageComparisonError`), compare schema versions, then for schema 1
compare `fsLayers`; otherwise compare content types and then `layers`
(single-arch) or `manifests` (multi-arch); an unsupported shared
content type is an `ImageComparisonError`. -/
def imageEq (a b : ManifestFetch) : Except ImgError Bool :=
  match a with
  | .error details => .error (.imageComparisonError details)
  | .ok (manifest, ct) =>
    match b with
    | .error details => .error (.imageComparisonError details)
    | .ok (otherManifest, otherCt) =>
      if manifest.schemaVersion ≠ otherManifest.schemaVersion then .ok false
      else if manifest.schemaVersion = 1 then
        .ok (manifest.fsLayers == otherManifest.fsLayers)
      else
        match contentTypeProp ct with
        | .error e => .error e
        | .ok c =>
          match contentTypeProp otherCt with
          | .error e => .error e
          | .ok c2 =>
            if c ≠ c2 then .ok false
            else if c ∈ SINGLE_ARCH_MEDIA_TYPES then
              .ok (manifest.layers == otherManifest.layers)
            else if c ∈ MULTI_ARCH_MEDIA_TYPES then
              .ok (manifest.manifests == otherManifest.manifests)
            else
              .error (.imageComparisonError
                ("Found unsupported content type " ++ c ++ " while comparing"))

/-- `Image.is_part_of`: content-type contract checks, then membership of
this image's digest among the entries of the collection's `manifests`
array. `selfContentType`, `selfDigest`, `otherContentType` are the
already-resolved property values of the two images. -/
def isPartOf (selfContentType selfDigest otherContentType : String)
    (otherManifest : Manifest) : Except ImgError Bool :=
  if selfContentType ∉ SINGLE_ARCH_MEDIA_TYPES then
    .error (.imageContainsError
      ("Unsupported image content type in self: " ++ selfContentType))
  else if otherContentType ∉ MULTI_ARCH_MEDIA_TYPES then
    .error (.imageContainsError
      ("Unsupported image content type in other: " ++ otherContentType))
  else .ok (otherManifest.manifests.any fun m => m.digest == selfDigest)

/-! ## Response cache (`_get_manifest` and its two cache strategies) -/

/-- An HTTP response, restricted to the headers the source reads. -/
structure Response where
  status : Nat
  contentType : Option String
  dockerContentDigest : Option String
  etag : Option String
  lastModified : Option String
  wwwAuthenticate : Option String
  body : String
deriving Repr, DecidableEq

inductive Method
  | get
  | head
deriving Repr, DecidableEq

/-- A request issued through `_do_request` by the manifest/cache layer:
method, URL and extra headers. -/
structure CacheReq where
  method : Method
  url : String
  headers : List (String × String)
deriving Repr, DecidableEq

/-- Cache keys are `(request_url, username)` (`Image._get_cache_key`). -/
abbrev CacheKey := String × Option String

/-- The shared `response_cache` mapping together with the per-image
hit/miss counters. -/
structure ResponseCache where
  entries : List (CacheKey × Response)
  hits : Nat
  misses : Nat
deriving Repr, DecidableEq

def cacheLookup (entries : List (CacheKey × Response)) (k : CacheKey) : Option Response :=
  (entries.find? fun p => p.1 == k).map (·.2)

def cacheStore (entries : List (CacheKey × Response)) (k : CacheKey)
    (r : Response) : List (CacheKey × Response) :=
  if entries.any (fun p => p.1 == k) then
    entries.map fun p => if p.1 == k then (k, r) else p
  else entries ++ [(k, r)]

inductive CacheMethodKind
  | digestComparison
  | conditionalRequest
deriving Repr, DecidableEq

/-- `Image._HANDLE_RESPONSE_CACHE_METHODS`: the per-registry dispatch
table for handling responses already present in the response cache. -/
def HANDLE_RESPONSE_CACHE_METHODS : List (String × CacheMethodKind) :=
  [("docker.io", .digestComparison),
   ("quay.io", .digestComparison),
   ("gcr.io", .digestComparison),
   ("registry.access.redhat.com", .conditionalRequest)]

def lookupCacheMethod (registry : String) : Option CacheMethodKind :=
  (HANDLE_RESPONSE_CACHE_METHODS.find? fun p => p.1 == registry).map (·.2)

/-- `Image._can_response_be_cached`. -/
def canResponseBeCached (registry : String) : Bool :=
  (lookupCacheMethod registry).isSome

/-- `Image._handle_docker_content_digest`: HEAD the manifest URL and
compare `Docker-Content-Digest` headers with the cached response; on a
match keep the cached response (hit), otherwise issue a full GET
(miss). Returns the chosen response, the hit and miss counter
increments, and the requests issued. -/
def handleDockerContentDigest (net : Method → String → List (String × String) → Response)
    (cached : Response) (url : String) : Response × Nat × Nat × List CacheReq :=
  let rsp := net .head url []
  match rsp.dockerContentDigest with
  | none => (net .get url [], 0, 1, [⟨.head, url, []⟩, ⟨.get, url, []⟩])
  | some d =>
    if (some d : Option String) ≠ cached.dockerContentDigest then
      (net .get url [], 0, 1, [⟨.head, url, []⟩, ⟨.get, url, []⟩])
    else (cached, 1, 0, [⟨.head, url, []⟩])

/-- `Image._handle_conditional_request`: GET with `If-None-Match` /
`If-Modified-Since` taken from the cached response; a 304 keeps the
cached response (hit), anything else is a miss. -/
def handleConditionalRequest (net : Method → String → List (String × String) → Response)
    (cached : Response) (url : String) : Response × Nat × Nat × List CacheReq :=
  let headers :=
    (match cached.etag with
     | some e => [("If-None-Match", e)]
     | none => []) ++
    (match cached.lastModified with
     | some l => [("If-Modified-Since", l)]
     | none => [])
  let rsp := net .get url headers
  if rsp.status = 304 then (cached, 1, 0, [⟨.get, url, headers⟩])
  else (rsp, 0, 1, [⟨.get, url, headers⟩])

/-- The fields of an `Image` that `_get_manifest` reads. `reference` is
`self.tag or self.digest`. -/
structure ImgCfg where
  registryApi : String
  registry : String
  repository : Option String
  image : String
  reference : String
  username : Option String
deriving Repr, DecidableEq

/-- The manifest URL built by `_get_manifest`. -/
def manifestUrl (cfg : ImgCfg) : String :=
  cfg.registryApi ++ "/v2" ++
    (match cfg.repository with
     | some r => "/" ++ r
     | none => "") ++
    "/" ++ cfg.image ++ "/manifests/" ++ cfg.reference

/-- `Image._get_cache_key`. -/
def getCacheKey (cfg : ImgCfg) (url : String) : CacheKey := (url, cfg.username)

/-- `Image._get_manifest`: without a response cache (or for a registry
with no cache-handling method) a plain GET; with a cache, on a present
key dispatch to the registry's strategy and store its result under the
key, on an absent key GET, store, and count a miss. Returns the
response, the updated cache state, and the requests issued. -/
def getManifest (net : Method → String → List (String × String) → Response)
    (cfg : ImgCfg) : Option ResponseCache → Response × Option ResponseCache × List CacheReq
  | none =>
    let url := manifestUrl cfg
    (net .get url [], none, [⟨.get, url, []⟩])
  | some rc =>
    let url := manifestUrl cfg
    match lookupCacheMethod cfg.registry with
    | none => (net .get url [], some rc, [⟨.get, url, []⟩])
    | some kind =>
      let key := getCacheKey cfg url
      match cacheLookup rc.entries key with
      | some cached =>
        let res := match kind with
          | .digestComparison => handleDockerContentDigest net cached url
          | .conditionalRequest => handleConditionalRequest net cached url
        (res.1, some ⟨cacheStore rc.entries key res.1,
                      rc.hits + res.2.1, rc.misses + res.2.2.1⟩, res.2.2.2)
      | none =>
        let r := net .get url []
        (r, some ⟨cacheStore rc.entries key r, rc.hits, rc.misses + 1⟩,
         [⟨.get, url, []⟩])

/-! ## Tag listing and pagination (`_get_tags`, `tags`) -/

/-- One page of the tags-list endpoint: the `tags` array of the JSON
body and the `next` relation link, when present. -/
structure TagsPage where
  tags : List String
  next : Option String
deriving Repr, DecidableEq

def tagsPerPage : Nat := 50

/-- The first tags-list URL built by `_get_tags`. -/
def tagsListUrl (registryApi : String) (repository : Option String)
    (image : String) : String :=
  registryApi ++ "/v2" ++
    (match repository with
     | some r => "/" ++ r
     | none => "") ++
    "/" ++ image ++ "/tags/list?n=" ++ toString tagsPerPage

/-- Resolution of the `next` relation link in `_get_tags`: the link is
used unchanged when it contains the registry API base as a substring
(Python `in`), otherwise the base is prepended. -/
def resolveNextUrl (registryApi nextUrl : String) : String :=
  if strContainsSub nextUrl registryApi then nextUrl else registryApi ++ nextUrl

/-- The pagination loop of `_get_tags`: while the last page did NOT
return fewer than `tagsPerPage` entries and a `next` link is present,
follow it and append its tags. `fuel` bounds the number of loop
iterations; `none` models a run not terminating within `fuel` pages
(the Python loop is unbounded). Returns the accumulated tags and the
requested URLs. -/
def getTagsLoop (server : String → TagsPage) (registryApi : String) :
    TagsPage → List String → List String → Nat → Option (List String × List String)
  | _, _, _, 0 => none
  | cur, allTags, urls, fuel + 1 =>
    if cur.tags.length < tagsPerPage then some (allTags, urls)
    else
      match cur.next with
      | none => some (allTags, urls)
      | some nxt =>
        let url := resolveNextUrl registryApi nxt
        let resp := server url
        getTagsLoop server registryApi resp (allTags ++ resp.tags) (urls ++ [url]) fuel

/-- `Image._get_tags`. -/
def getTags (server : String → TagsPage) (registryApi : String)
    (repository : Option String) (image : String) (fuel : Nat) :
    Option (List String × List String) :=
  let url := tagsListUrl registryApi repository image
  let resp := server url
  getTagsLoop server registryApi resp resp.tags [url] fuel

/-- Modelled from the spec: the claim says a next link is "resolved
relative to the registry API base when it is not already absolute"; an
absolute URL is one carrying an http or https scheme. -/
def isAbsoluteUrl (u : String) : Bool :=
  listStartsWith "http://".data u.data || listStartsWith "https://".data u.data

/-- Modelled from the spec: the claim's link resolution — an already
absolute next link is used unchanged, any other link is resolved
against the registry API base. -/
def specResolveNextUrl (registryApi nextUrl : String) : String :=
  if isAbsoluteUrl nextUrl then nextUrl else registryApi ++ nextUrl

/-- Modelled from the spec (claim side): the pagination loop as the
claim words it — continue to the next page only while the last page
returned EXACTLY `tagsPerPage` entries and a `next` link is present,
resolving the link against the registry API base when it is not
already absolute. -/
def specTagsLoopExact (server : String → TagsPage) (registryApi : String) :
    TagsPage → List String → List String → Nat → Option (List String × List String)
  | _, _, _, 0 => none
  | cur, allTags, urls, fuel + 1 =>
    if cur.tags.length = tagsPerPage then
      match cur.next with
      | none => some (allTags, urls)
      | some nxt =>
        let url := specResolveNextUrl registryApi nxt
        let resp := server url
        specTagsLoopExact server registryApi resp (allTags ++ resp.tags)
          (urls ++ [url]) fuel
    else some (allTags, urls)

/-- Modelled from the spec, as amended: continue to the next page only
while the last page returned AT LEAST `tagsPerPage` entries and a
`next` link is present, the link being used unchanged when it already
contains the registry API base as a substring (the code's Python `in`
check, `resolveNextUrl`) and resolved against the base otherwise. -/
def specTagsLoopAtLeast (server : String → TagsPage) (registryApi : String) :
    TagsPage → List String → List String → Nat → Option (List String × List String)
  | _, _, _, 0 => none
  | cur, allTags, urls, fuel + 1 =>
    if tagsPerPage ≤ cur.tags.length then
      match cur.next with
      | none => some (allTags, urls)
      | some nxt =>
        let url := resolveNextUrl registryApi nxt
        let resp := server url
        specTagsLoopAtLeast server registryApi resp (allTags ++ resp.tags)
          (urls ++ [url]) fuel
    else some (allTags, urls)

/-- Claim-side `_get_tags` with the exactly-50 continuation condition
and the claim's absoluteness-based link resolution. -/
def specGetTagsExact (server : String → TagsPage) (registryApi : String)
    (repository : Option String) (image : String) (fuel : Nat) :
    Option (List String × List String) :=
  let url := tagsListUrl registryApi repository image
  let resp := server url
  specTagsLoopExact server registryApi resp resp.tags [url] fuel

/-- Claim-side `_get_tags` with the at-least-50 continuation condition. -/
def specGetTagsAtLeast (server : String → TagsPage) (registryApi : String)
    (repository : Option String) (image : String) (fuel : Nat) :
    Option (List String × List String) :=
  let url := tagsListUrl registryApi repository image
  let resp := server url
  specTagsLoopAtLeast server registryApi resp resp.tags [url] fuel

/-- The `tags` property: `cache` is `Image._cache_tags`; `fetch` is the
outcome `_get_tags` would produce (an `HTTPError` message, or the tag
list). Returns the property value, the new `_cache_tags`, and how many
times `_get_tags` ran. -/
def tagsProperty (fetch : Except String (List String)) :
    Option (List String) → List String × Option (List String) × Nat
  | some l => (l, some l, 0)
  | none =>
    match fetch with
    | .ok l => (l, some l, 1)
    | .error _ => ([], some [], 1)

/-! ## `retry` (`sretoolbox/utils/retry.py`) -/

/-- The loop of the `retry` decorator: `f n` is the outcome of attempt
`n` (attempts numbered from 1, as `itertools.count(1)` does); a raised
retried exception at attempt `n` with `n > max_attempts - 1` propagates,
otherwise `time.sleep(n)` runs and the next attempt starts. Returns the
final outcome, the attempts made, and the sleep durations, in order. -/
def retryLoop {E A : Type} (f : Nat → Except E A) (maxAttempts : Nat)
    (attempt : Nat) : Except E A × List Nat × List Nat :=
  match f attempt with
  | .ok a => (.ok a, [attempt], [])
  | .error e =>
    if (attempt : Int) > (maxAttempts : Int) - 1 then (.error e, [attempt], [])
    else
      let r := retryLoop f maxAttempts (attempt + 1)
      (r.1, attempt :: r.2.1, attempt :: r.2.2)
termination_by maxAttempts - attempt
decreasing_by omega

/-- The `retry` decorator applied to an action: start at attempt 1. -/
def retryRun {E A : Type} (f : Nat → Except E A) (maxAttempts : Nat) :
    Except E A × List Nat × List Nat :=
  retryLoop f maxAttempts 1

/-! ## `_do_request` authentication flow -/

/-- The `Accept` header `_do_request` always sends. -/
def acceptHeader : String :=
  SCHEMA1_MANIFEST_MEDIA_TYPE ++ "," ++
  SCHEMA1_SIGNED_MANIFEST_MEDIA_TYPE ++ "," ++
  SCHEMA2_MANIFEST_MEDIA_TYPE ++ "," ++
  SCHEMA2_MANIFEST_LIST_MEDIA_TYPE ++ "," ++
  OCI_MANIFEST_MEDIA_TYPE ++ "," ++
  OCI_IMAGE_INDEX_MEDIA_TYPE

/-- Python dict update `d[k] = v` on an insertion-ordered assoc list. -/
def dictSet (d : List (String × String)) (k v : String) : List (String × String) :=
  if d.any (fun p => p.1 == k) then d.map fun p => if p.1 == k then (k, v) else p
  else d ++ [(k, v)]

def dictGet (d : List (String × String)) (k : String) : Option String :=
  (d.find? fun p => p.1 == k).map (·.2)

/-- One outbound call of the `requests` library, restricted to the
arguments `_do_request` controls: URL, headers, basic-auth pair, and
TLS verification flag. -/
structure HttpCall where
  url : String
  headers : List (String × String)
  auth : Option (String × String)
  verify : Bool
deriving Repr, DecidableEq

/-- The `Image` fields `_do_request` reads. -/
structure AuthCfg where
  authToken : Option String
  auth : Option (String × String)
  sslVerify : Bool
deriving Repr, DecidableEq

/-- The first request issued by `_do_request`: the `Accept` header plus
caller headers; the cached bearer token if present (and then no basic
auth), else the configured basic auth; the Image's `ssl_verify` flag is
passed through. -/
def firstCall (cfg : AuthCfg) (url : String)
    (extraHeaders : List (String × String)) : HttpCall :=
  let rh := extraHeaders.foldl (fun d p => dictSet d p.1 p.2) [("Accept", acceptHeader)]
  match cfg.authToken with
  | some t => ⟨url, dictSet rh "Authorization" t, none, cfg.sslVerify⟩
  | none => ⟨url, rh, cfg.auth, cfg.sslVerify⟩

/-- `Image._raise_for_status`: error for any final status ≥ 400. -/
def raiseForStatus (rsp : Response) : Except String Response :=
  if rsp.status < 400 then .ok rsp else .error ("HTTP " ++ toString rsp.status)

/-- One pass of `Image._do_request` (the outer retry decorator is
modelled separately by `retryRun`): `respond` is the network and
`tokenFor` abstracts `_parse_www_auth` + `_get_auth` (challenge header
value to new `Authorization` value). On a 401 with a `Www-Authenticate`
challenge, the request is retried exactly once with the fresh token in
`Authorization`, `auth=None`, and the `requests` default `verify=True`
(the code passes neither `auth` nor `verify` on the retry call).
Returns the final outcome, the calls issued, and the new `auth_token`. -/
def doRequest (cfg : AuthCfg) (respond : HttpCall → Response)
    (tokenFor : String → String) (url : String)
    (extraHeaders : List (String × String)) :
    Except String Response × List HttpCall × Option String :=
  let call1 := firstCall cfg url extraHeaders
  let rsp := respond call1
  if rsp.status = 401 then
    match rsp.wwwAuthenticate with
    | none => (raiseForStatus rsp, [call1], cfg.authToken)
    | some authSpecs =>
      let newToken := tokenFor authSpecs
      let call2 : HttpCall := ⟨url, dictSet call1.headers "Authorization" newToken,
                               none, true⟩
      let rsp2 := respond call2
      (raiseForStatus rsp2, [call1, call2], some newToken)
  else (raiseForStatus rsp, [call1], cfg.authToken)

/-! ## Concrete fixtures used by witnesses and counterexamples -/

/-- `n` distinct tag names with a common stem. -/
def tagNames (pre : String) (n : Nat) : List String :=
  (List.range n).map fun i => pre ++ toString i

def dockerApi : String := "https://registry-1.docker.io"

/-- Page 1 of the three-page pagination example: 50 tags, relative next
link. -/
def page50p : TagsPage := ⟨tagNames "p" 50, some "/v2/library/img/tags/list?n=50&last=p49"⟩

/-- Page 2: 50 tags, absolute next link (contains the API base). -/
def page50q : TagsPage :=
  ⟨tagNames "q" 50, some (dockerApi ++ "/v2/library/img/tags/list?n=50&last=q49")⟩

/-- Page 3: 12 tags, no next link. -/
def page12r : TagsPage := ⟨tagNames "r" 12, none⟩

/-- A server with the 50/50/12 page sequence. -/
def server3 : String → TagsPage := fun url =>
  if url = tagsListUrl dockerApi (some "library") "img" then page50p
  else if url = dockerApi ++ "/v2/library/img/tags/list?n=50&last=p49" then page50q
  else if url = dockerApi ++ "/v2/library/img/tags/list?n=50&last=q49" then page12r
  else ⟨[], none⟩

def exampleApi : String := "https://registry.example.com"

/-- A first page carrying 51 tags (more than the requested page size)
and a next link. -/
def page51 : TagsPage := ⟨tagNames "a" 51, some "/v2/lib/img/tags/list?n=50&last=a50"⟩

def page12c : TagsPage := ⟨tagNames "b" 12, none⟩

/-- A server whose first page has 51 tags. -/
def server51 : String → TagsPage := fun url =>
  if url = tagsListUrl exampleApi (some "lib") "img" then page51
  else if url = exampleApi ++ "/v2/lib/img/tags/list?n=50&last=a50" then page12c
  else ⟨[], none⟩

/-- A first page of exactly 50 tags whose next link is already absolute
but on a different host, so it does not contain the example API base. -/
def page50x : TagsPage :=
  ⟨tagNames "x" 50, some "https://mirror.example.org/v2/lib/img/tags/list?n=50&last=x49"⟩

/-- A server serving `page50x` on the first tags-list URL and an empty
last page everywhere else. -/
def serverMirror : String → TagsPage := fun url =>
  if url = tagsListUrl exampleApi (some "lib") "img" then page50x
  else ⟨[], none⟩

/-- A 64-character lowercase hex digest body. -/
def hex64a : String := String.mk (List.replicate 64 'a')

/-- A schema-2 manifest body for the C1 witness. -/
def mV2 : Manifest := ⟨2, [], ["layerA", "layerB"], []⟩

/-- A 401 challenge response, for the C10 witness network. -/
def challengeRsp : Response :=
  ⟨401, none, none, none, none, some "Bearer realm=https://quay.io/token", ""⟩

/-- A 200 response, for the C10 witness network. -/
def okRsp : Response := ⟨200, some "ct", none, none, none, none, "manifest"⟩

/-- A witness network that answers 401-with-challenge to the first call
(issued with `verify=False`) and 200 to the retry (`verify=True`). -/
def respondW : HttpCall → Response := fun c => if c.verify then okRsp else challengeRsp

/-- A witness Image configuration: basic auth configured, no token yet,
`ssl_verify=False`. -/
def cfgW : AuthCfg := ⟨none, some ("user", "pass"), false⟩

def urlW : String := "https://quay.io/v2/app-sre/img/manifests/latest"

/-! ## Helper lemmas -/

theorem firstSome_eq_some {α β : Type} {l : List α} {f : α → Option β} {b : β}
    (h : firstSome l f = some b) : ∃ a, a ∈ l ∧ f a = some b := by
  induction l with
  | nil => simp [firstSome] at h
  | cons a as ih =>
    simp only [firstSome] at h
    cases ha : f a with
    | some v =>
      rw [ha] at h
      simp [Option.orElse] at h
      exact ⟨a, List.mem_cons_self a as, by rw [ha, h]⟩
    | none =>
      rw [ha] at h
      simp [Option.orElse] at h
      obtain ⟨x, hx, hfx⟩ := ih h
      exact ⟨x, List.mem_cons_of_mem a hx, hfx⟩

theorem orElse_eq_some {α : Type} {a : Option α} {f : Unit → Option α} {b : α}
    (h : a.orElse f = some b) : a = some b ∨ f () = some b := by
  cases a with
  | none => right; simpa [Option.orElse] using h
  | some v => left; simpa [Option.orElse] using h

theorem mEnd_reg_port {sch reg port repo : Option String} {img : String}
    {dig tag : Option String} {cs : List Char} {g : RawMatch}
    (h : mEnd sch reg port repo img dig tag cs = some g) :
    g.registry = reg ∧ g.port = port := by
  unfold mEnd at h
  split at h
  · cases h; exact ⟨rfl, rfl⟩
  · cases h

theorem mTag_reg_port {sch reg port repo : Option String} {img : String}
    {dig : Option String} {tagColon : Bool} {cs : List Char} {g : RawMatch}
    (h : mTag sch reg port repo img dig tagColon cs = some g) :
    g.registry = reg ∧ g.port = port := by
  unfold mTag at h
  split at h
  · obtain ⟨k, _, hk⟩ := firstSome_eq_some h
    exact mEnd_reg_port hk
  · exact mEnd_reg_port h

theorem mTagColon_reg_port {sch reg port repo : Option String} {img : String}
    {dig : Option String} {cs : List Char} {g : RawMatch}
    (h : mTagColon sch reg port repo img dig cs = some g) :
    g.registry = reg ∧ g.port = port := by
  cases dig with
  | some d =>
    simp only [mTagColon] at h
    exact mTag_reg_port h
  | none =>
    simp only [mTagColon] at h
    rcases orElse_eq_some h with h1 | h1
    · split at h1
      · exact mTag_reg_port h1
      · cases h1
    · exact mTag_reg_port h1

theorem mDigest_reg_port {sch reg port repo : Option String} {img : String}
    {digAt : Bool} {cs : List Char} {g : RawMatch}
    (h : mDigest sch reg port repo img digAt cs = some g) :
    g.registry = reg ∧ g.port = port := by
  unfold mDigest at h
  split at h
  · split at h
    · dsimp only at h
      split at h
      · exact mTagColon_reg_port h
      · cases h
    · cases h
  · exact mTagColon_reg_port h

theorem mDigestAt_reg_port {sch reg port repo : Option String} {img : String}
    {cs : List Char} {g : RawMatch}
    (h : mDigestAt sch reg port repo img cs = some g) :
    g.registry = reg ∧ g.port = port := by
  unfold mDigestAt at h
  rcases orElse_eq_some h with h1 | h1
  · split at h1
    · exact mDigest_reg_port h1
    · cases h1
  · exact mDigest_reg_port h1

theorem mImage_reg_port {sch reg port repo : Option String}
    {cs : List Char} {g : RawMatch}
    (h : mImage sch reg port repo cs = some g) :
    g.registry = reg ∧ g.port = port := by
  unfold mImage at h
  obtain ⟨k, _, hk⟩ := firstSome_eq_some h
  exact mDigestAt_reg_port hk

theorem mRepository_reg_port {sch reg port : Option String}
    {cs : List Char} {g : RawMatch}
    (h : mRepository sch reg port cs = some g) :
    g.registry = reg ∧ g.port = port := by
  unfold mRepository at h
  rcases orElse_eq_some h with h1 | h1
  · obtain ⟨k, _, hk⟩ := firstSome_eq_some h1
    split at hk
    · exact mImage_reg_port hk
    · cases hk
  · exact mImage_reg_port h1

theorem mPortAndSlash_registry {sch : Option String} {regStr : String}
    {cs : List Char} {g : RawMatch}
    (h : mPortAndSlash sch regStr cs = some g) :
    g.registry = some regStr := by
  unfold mPortAndSlash at h
  rcases orElse_eq_some h with h1 | h1
  · split at h1
    · obtain ⟨k, _, hk⟩ := firstSome_eq_some h1
      split at hk
      · exact (mRepository_reg_port hk).1
      · cases hk
    · cases h1
  · split at h1
    · exact (mRepository_reg_port h1).1
    · cases h1

theorem mRegistry_port_none {sch : Option String} {cs : List Char} {g : RawMatch}
    (h : mRegistry sch cs = some g) (hreg : g.registry = none) : g.port = none := by
  unfold mRegistry at h
  rcases orElse_eq_some h with h1 | h1
  · obtain ⟨a, _, ha⟩ := firstSome_eq_some h1
    split at ha
    · obtain ⟨b, _, hb⟩ := firstSome_eq_some ha
      rw [mPortAndSlash_registry hb] at hreg
      cases hreg
    · cases ha
  · rcases mRepository_reg_port h1 with ⟨_, hp⟩
    exact hp

theorem matchAt_port_none {cs : List Char} {g : RawMatch}
    (h : matchAt cs = some g) (hreg : g.registry = none) : g.port = none := by
  unfold matchAt at h
  rcases orElse_eq_some h with h1 | h1
  · obtain ⟨k, _, hk⟩ := firstSome_eq_some h1
    split at hk
    · exact mRegistry_port_none hk hreg
    · cases hk
  · exact mRegistry_port_none h1 hreg

theorem searchFrom_port_none :
    ∀ {cs : List Char} {g : RawMatch}, searchFrom cs = some g →
      g.registry = none → g.port = none := by
  intro cs
  induction cs with
  | nil =>
    intro g h hr
    simp only [searchFrom] at h
    exact matchAt_port_none h hr
  | cons c t ih =>
    intro g h hr
    simp only [searchFrom] at h
    rcases orElse_eq_some h with h1 | h1
    · exact matchAt_port_none h1 hr
    · exact ih h1 hr

theorem pySearch_port_none {s : String} {g : RawMatch}
    (h : pySearch s = some g) (hr : g.registry = none) : g.port = none :=
  searchFrom_port_none h hr

theorem getTagsLoop_eq_atLeast (server : String → TagsPage) (registryApi : String) :
    ∀ fuel cur allTags urls,
      getTagsLoop server registryApi cur allTags urls fuel =
        specTagsLoopAtLeast server registryApi cur allTags urls fuel := by
  intro fuel
  induction fuel with
  | zero => intro cur a u; rfl
  | succ n ih =>
    intro cur a u
    simp only [getTagsLoop, specTagsLoopAtLeast]
    by_cases h : cur.tags.length < tagsPerPage
    · rw [if_pos h, if_neg (by omega)]
    · rw [if_neg h, if_pos (by omega)]
      cases cur.next with
      | none => rfl
      | some nxt => exact ih _ _ _

theorem find?_set_of_any (k v : String) :
    ∀ d : List (String × String), d.any (fun p => p.1 == k) = true →
      ((d.map fun p => if p.1 == k then (k, v) else p).find? fun p => p.1 == k) =
        some (k, v) := by
  intro d
  induction d with
  | nil => intro h; cases h
  | cons a t ih =>
    intro h
    by_cases ha : (a.1 == k) = true
    · simp only [List.map_cons, if_pos ha, List.find?, beq_self_eq_true]
    · have ha2 : (a.1 == k) = false := by
        cases hv : a.1 == k
        · rfl
        · exact absurd hv ha
      have ht : t.any (fun p => p.1 == k) = true := by
        simp only [List.any_cons, Bool.or_eq_true] at h
        tauto
      have hhead : (if (a.1 == k) = true then (k, v) else a) = a := if_neg ha
      rw [List.map_cons, hhead]
      simp only [List.find?, ha2]
      exact ih ht

theorem find?_append_of_not_any (k v : String) :
    ∀ d : List (String × String), d.any (fun p => p.1 == k) = false →
      ((d ++ [(k, v)]).find? fun p => p.1 == k) = some (k, v) := by
  intro d
  induction d with
  | nil => intro _; simp only [List.nil_append, List.find?, beq_self_eq_true]
  | cons a t ih =>
    intro h
    simp only [List.any_cons, Bool.or_eq_false_iff] at h
    simp only [List.cons_append, List.find?, h.1]
    exact ih h.2

theorem dictGet_dictSet (d : List (String × String)) (k v : String) :
    dictGet (dictSet d k v) k = some v := by
  unfold dictGet dictSet
  by_cases h : d.any (fun p => p.1 == k) = true
  · rw [if_pos h, find?_set_of_any k v d h]; rfl
  · have h2 : d.any (fun p => p.1 == k) = false := by
      cases hv : d.any fun p => p.1 == k
      · rfl
      · exact absurd hv h
    rw [if_neg h, find?_append_of_not_any k v d h2]; rfl

theorem retryLoop_calls_le {E A : Type} (f : Nat → Except E A) (maxAttempts : Nat) :
    ∀ n attempt, maxAttempts - attempt ≤ n →
      ((retryLoop f maxAttempts attempt).2.1).length ≤ n + 1 := by
  intro n
  induction n with
  | zero =>
    intro attempt h
    rw [retryLoop]
    cases f attempt with
    | ok a => simp
    | error e =>
      dsimp only
      rw [if_pos (by omega)]
      simp
  | succ n ih =>
    intro attempt h
    rw [retryLoop]
    cases f attempt with
    | ok a => simp
    | error e =>
      dsimp only
      by_cases hc : (attempt : Int) > (maxAttempts : Int) - 1
      · rw [if_pos hc]; simp
      · rw [if_neg hc]
        have := ih (attempt + 1) (by omega)
        simpa using Nat.succ_le_succ this

/-! ## Claim theorems -/

/-- Claim C9: every low-level registry request is retried on transient
connection failures and `HTTPError` for at most 5 total attempts; when
every attempt fails, the attempts are 1,2,3,4,5, the sleeps between
consecutive attempts are the linearly increasing 1,2,3,4 seconds, and
the 5th attempt's exception propagates to the caller. -/
theorem retry_five_attempts_linear_backoff {A : Type} (f : Nat → Except String A)
    (e : Nat → String) :
    ((retryRun f 5).2.1).length ≤ 5 ∧
    ((∀ i, f i = .error (e i)) →
      retryRun f 5 = (.error (e 5), [1, 2, 3, 4, 5], [1, 2, 3, 4])) := by
  constructor
  · have := retryLoop_calls_le f 5 4 1 (by omega)
    simpa [retryRun] using this
  · intro h
    rw [retryRun]
    rw [retryLoop, h 1]; dsimp only; rw [if_neg (by decide)]
    rw [retryLoop, h 2]; dsimp only; rw [if_neg (by decide)]
    rw [retryLoop, h 3]; dsimp only; rw [if_neg (by decide)]
    rw [retryLoop, h 4]; dsimp only; rw [if_neg (by decide)]
    rw [retryLoop, h 5]; dsimp only; rw [if_pos (by decide)]

/-- Witness for C9 at a concrete always-failing action. -/
theorem retry_five_attempts_linear_backoff_witness :
    retryRun (fun i => (.error (toString i) : Except String Unit)) 5 =
      (.error (toString 5), [1, 2, 3, 4, 5], [1, 2, 3, 4]) :=
  (retry_five_attempts_linear_backoff (fun i => .error (toString i)) toString).2
    fun _ => rfl

/-- Claim C8: the `tags` property never raises an HTTP error — when the
underlying `_get_tags` call fails with an `HTTPError` the property
evaluates to `[]` instead of propagating — and the outcome (list or
empty list) is memoized: a second access returns the first result and
runs `_get_tags` zero times, whatever the network would do then. -/
theorem tags_swallow_http_error_and_memoize
    (fetch fetch2 : Except String (List String)) :
    (∀ msg, fetch = .error msg → tagsProperty fetch none = ([], some [], 1)) ∧
    (∀ l, fetch = .ok l → tagsProperty fetch none = (l, some l, 1)) ∧
    tagsProperty fetch2 (tagsProperty fetch none).2.1 =
      ((tagsProperty fetch none).1, (tagsProperty fetch none).2.1, 0) := by
  refine ⟨fun msg hm => ?_, fun l hl => ?_, ?_⟩
  · rw [hm]; rfl
  · rw [hl]; rfl
  · cases fetch with
    | ok l => rfl
    | error msg => rfl

/-- Witness for C8 at a failing fetch and an arbitrary second fetch. -/
theorem tags_swallow_http_error_and_memoize_witness :
    tagsProperty (.error "(404) Not Found") none = ([], some [], 1) :=
  (tags_swallow_http_error_and_memoize (.error "(404) Not Found") (.ok ["x"])).1
    "(404) Not Found" rfl

/-- Claim C7: `is_part_of` raises `ImageContainsError` whenever the
member's content type is not a single-arch manifest media type or the
collection's is not a multi-arch media type; with compatible types it
returns true iff the member's digest equals the `digest` field of some
entry of the collection manifest's `manifests` array. -/
theorem is_part_of_contract_and_membership (selfCt selfDigest otherCt : String)
    (other : Manifest) :
    ((selfCt ∉ SINGLE_ARCH_MEDIA_TYPES ∨ otherCt ∉ MULTI_ARCH_MEDIA_TYPES) →
      ∃ msg, isPartOf selfCt selfDigest otherCt other =
        .error (.imageContainsError msg)) ∧
    (selfCt ∈ SINGLE_ARCH_MEDIA_TYPES → otherCt ∈ MULTI_ARCH_MEDIA_TYPES →
      (isPartOf selfCt selfDigest otherCt other = .ok true ↔
        ∃ entry ∈ other.manifests, entry.digest = selfDigest)) := by
  constructor
  · intro h
    unfold isPartOf
    by_cases h1 : selfCt ∈ SINGLE_ARCH_MEDIA_TYPES
    · have h2 : otherCt ∉ MULTI_ARCH_MEDIA_TYPES := by tauto
      rw [if_neg (by simpa using h1), if_pos (by simpa using h2)]
      exact ⟨_, rfl⟩
    · rw [if_pos (by simpa using h1)]
      exact ⟨_, rfl⟩
  · intro h1 h2
    unfold isPartOf
    rw [if_neg (by simpa using h1), if_neg (by simpa using h2)]
    constructor
    · intro h
      have hany : other.manifests.any (fun m => m.digest == selfDigest) = true := by
        simpa using h
      simpa using hany
    · intro h
      have hany : other.manifests.any (fun m => m.digest == selfDigest) = true := by
        simpa using h
      rw [hany]

/-- Witness for C7: a single-arch member inside a two-entry OCI index. -/
theorem is_part_of_contract_and_membership_witness :
    isPartOf SCHEMA2_MANIFEST_MEDIA_TYPE "sha256:abc" OCI_IMAGE_INDEX_MEDIA_TYPE
      ⟨2, [], [], [⟨"sha256:xyz", "amd64"⟩, ⟨"sha256:abc", "arm64"⟩]⟩ = .ok true :=
  ((is_part_of_contract_and_membership SCHEMA2_MANIFEST_MEDIA_TYPE "sha256:abc"
      OCI_IMAGE_INDEX_MEDIA_TYPE
      ⟨2, [], [], [⟨"sha256:xyz", "amd64"⟩, ⟨"sha256:abc", "arm64"⟩]⟩).2
    (by decide) (by decide)).mpr ⟨⟨"sha256:abc", "arm64"⟩, by decide, rfl⟩

/-- Claim C2: with a shared response cache and a registry dispatched to
the digest-comparison strategy, when a cached response exists under the
manifest cache key `(manifest_url, username)`, a manifest fetch issues a
HEAD request and compares its `Docker-Content-Digest` header with the
cached response's: on a match it returns the cached response and
increments the hit counter by one; on a mismatch, or when the header is
absent, it issues a full GET, stores the new response under the key,
returns it, and increments the miss counter by one. -/
theorem digest_strategy_cache_behavior
    (net : Method → String → List (String × String) → Response)
    (cfg : ImgCfg) (rc : ResponseCache) (cached : Response)
    (hreg : lookupCacheMethod cfg.registry = some .digestComparison)
    (hcached : cacheLookup rc.entries (getCacheKey cfg (manifestUrl cfg)) = some cached) :
    (∀ d, (net .head (manifestUrl cfg) []).dockerContentDigest = some d →
      cached.dockerContentDigest = some d →
      getManifest net cfg (some rc) =
        (cached,
         some ⟨cacheStore rc.entries (getCacheKey cfg (manifestUrl cfg)) cached,
               rc.hits + 1, rc.misses⟩,
         [⟨.head, manifestUrl cfg, []⟩])) ∧
    (((net .head (manifestUrl cfg) []).dockerContentDigest = none ∨
      (net .head (manifestUrl cfg) []).dockerContentDigest ≠ cached.dockerContentDigest) →
      getManifest net cfg (some rc) =
        (net .get (manifestUrl cfg) [],
         some ⟨cacheStore rc.entries (getCacheKey cfg (manifestUrl cfg))
                 (net .get (manifestUrl cfg) []),
               rc.hits, rc.misses + 1⟩,
         [⟨.head, manifestUrl cfg, []⟩, ⟨.get, manifestUrl cfg, []⟩])) := by
  constructor
  · intro d hhead hcacheddig
    simp only [getManifest, hreg, hcached]
    unfold handleDockerContentDigest
    dsimp only
    rw [hhead]
    dsimp only
    rw [if_neg (by rw [hcacheddig]; simp)]
    simp
  · intro hmiss
    simp only [getManifest, hreg, hcached]
    unfold handleDockerContentDigest
    dsimp only
    rcases hd : (net .head (manifestUrl cfg) []).dockerContentDigest with _ | d
    · simp
    · have hne : (some d : Option String) ≠ cached.dockerContentDigest := by
        rcases hmiss with hnone | hneq
        · rw [hd] at hnone; cases hnone
        · rw [hd] at hneq; exact hneq
      dsimp only
      rw [if_pos hne]
      simp

/-- Witness for C2: a cache hit in a concrete shared cache. -/
theorem digest_strategy_cache_behavior_witness :
    getManifest
      (fun _ _ _ => ⟨200, some "ct", some "sha256:d1", none, none, none, "body"⟩)
      ⟨"https://registry-1.docker.io", "docker.io", some "library", "img", "latest", none⟩
      (some ⟨[(("https://registry-1.docker.io/v2/library/img/manifests/latest", none),
               ⟨200, some "ct", some "sha256:d1", none, none, none, "cachedbody"⟩)], 0, 0⟩) =
      (⟨200, some "ct", some "sha256:d1", none, none, none, "cachedbody"⟩,
       some ⟨[(("https://registry-1.docker.io/v2/library/img/manifests/latest", none),
               ⟨200, some "ct", some "sha256:d1", none, none, none, "cachedbody"⟩)], 1, 0⟩,
       [⟨.head, "https://registry-1.docker.io/v2/library/img/manifests/latest", []⟩]) :=
  (digest_strategy_cache_behavior
      (fun _ _ _ => ⟨200, some "ct", some "sha256:d1", none, none, none, "body"⟩)
      ⟨"https://registry-1.docker.io", "docker.io", some "library", "img", "latest", none⟩
      ⟨[(("https://registry-1.docker.io/v2/library/img/manifests/latest", none),
         ⟨200, some "ct", some "sha256:d1", none, none, none, "cachedbody"⟩)], 0, 0⟩
      ⟨200, some "ct", some "sha256:d1", none, none, none, "cachedbody"⟩
      (by decide) (by decide)).1 "sha256:d1" rfl rfl

/-- Claim C10: on a 401 response carrying a `Www-Authenticate`
challenge, `_do_request` issues exactly one retry; the retried call
carries the freshly negotiated token in its `Authorization` header,
sends no basic-auth credentials (`auth=None`), and does not pass the
Image's `ssl_verify` flag, so the retry uses the `requests` default
`verify=True` even when the Image was built with `ssl_verify=False`. -/
theorem do_request_401_retries_once_with_fresh_token
    (cfg : AuthCfg) (respond : HttpCall → Response) (tokenFor : String → String)
    (url : String) (extraHeaders : List (String × String)) (authSpecs : String)
    (h401 : (respond (firstCall cfg url extraHeaders)).status = 401)
    (hch : (respond (firstCall cfg url extraHeaders)).wwwAuthenticate = some authSpecs) :
    doRequest cfg respond tokenFor url extraHeaders =
      (raiseForStatus (respond
         ⟨url, dictSet (firstCall cfg url extraHeaders).headers "Authorization"
            (tokenFor authSpecs), none, true⟩),
       [firstCall cfg url extraHeaders,
        ⟨url, dictSet (firstCall cfg url extraHeaders).headers "Authorization"
           (tokenFor authSpecs), none, true⟩],
       some (tokenFor authSpecs)) ∧
    dictGet (dictSet (firstCall cfg url extraHeaders).headers "Authorization"
      (tokenFor authSpecs)) "Authorization" = some (tokenFor authSpecs) := by
  constructor
  · unfold doRequest
    dsimp only
    rw [if_pos h401, hch]
  · exact dictGet_dictSet _ _ _

/-- Witness for C10: the retry succeeds with the fresh token, no basic
auth and `verify=True`, although the Image has `ssl_verify=False`. -/
theorem do_request_401_retries_once_with_fresh_token_witness :
    doRequest cfgW respondW (fun _ => "Bearer newtok") urlW [] =
      (.ok okRsp,
       [firstCall cfgW urlW [],
        ⟨urlW, dictSet (firstCall cfgW urlW []).headers "Authorization" "Bearer newtok",
         none, true⟩],
       some "Bearer newtok") := by
  have h := (do_request_401_retries_once_with_fresh_token cfgW respondW
    (fun _ => "Bearer newtok") urlW [] "Bearer realm=https://quay.io/token" rfl rfl).1
  rw [h]
  rfl

/-- The two single-arch media types are not multi-arch media types. -/
theorem single_arch_not_multi_arch {c : String} (h : c ∈ SINGLE_ARCH_MEDIA_TYPES) :
    c ∉ MULTI_ARCH_MEDIA_TYPES := by
  simp only [SINGLE_ARCH_MEDIA_TYPES, List.mem_cons, List.not_mem_nil, or_false,
    List.mem_singleton] at h
  rcases h with h | h <;> subst h <;> decide

/-- Claim C1: for two images whose manifests are both retrievable,
`__eq__` returns true iff both manifests have the same schema version
and, for legacy schema (version 1), identical `fsLayers` lists, or, for
modern schemas, identical content type together with identical `layers`
entries (single-arch) or identical `manifests` entries (multi-arch);
when fetching either manifest fails, `__eq__` raises
`ImageComparisonError` and never returns false. -/
theorem image_eq_semantics (a b : ManifestFetch) :
    (∀ m ct m2 ct2, a = .ok (m, ct) → b = .ok (m2, ct2) →
      (imageEq a b = .ok true ↔
        (m.schemaVersion = m2.schemaVersion ∧
          (if m.schemaVersion = 1 then m.fsLayers = m2.fsLayers
           else ∃ c, ct = some c ∧ ct2 = some c ∧
             ((c ∈ SINGLE_ARCH_MEDIA_TYPES ∧ m.layers = m2.layers) ∨
              (c ∈ MULTI_ARCH_MEDIA_TYPES ∧ m.manifests = m2.manifests)))))) ∧
    (∀ msg, a = .error msg → imageEq a b = .error (.imageComparisonError msg)) ∧
    (∀ v msg, a = .ok v → b = .error msg →
      imageEq a b = .error (.imageComparisonError msg)) := by
  refine ⟨?_, ?_, ?_⟩
  · rintro m ct m2 ct2 rfl rfl
    unfold imageEq
    dsimp only
    by_cases hv : m.schemaVersion = m2.schemaVersion
    · rw [if_neg (not_not_intro hv)]
      by_cases h1 : m.schemaVersion = 1
      · rw [if_pos h1, if_pos h1]
        simp [hv, beq_iff_eq]
      · rw [if_neg h1, if_neg h1]
        cases ct with
        | none => simp [contentTypeProp]
        | some c =>
          cases ct2 with
          | none => simp [contentTypeProp]
          | some c2 =>
            simp only [contentTypeProp]
            by_cases hc : c = c2
            · subst hc
              rw [if_neg (by simp)]
              by_cases hs : c ∈ SINGLE_ARCH_MEDIA_TYPES
              · rw [if_pos hs]
                simp [hv, hs, single_arch_not_multi_arch hs, beq_iff_eq]
              · rw [if_neg hs]
                by_cases hmm : c ∈ MULTI_ARCH_MEDIA_TYPES
                · rw [if_pos hmm]
                  simp [hv, hs, hmm, beq_iff_eq]
                · rw [if_neg hmm]
                  simp [hs, hmm]
            · rw [if_pos hc]
              constructor
              · intro h
                simp at h
              · rintro ⟨_, c', hc1, hc2, _⟩
                rw [Option.some_inj] at hc1 hc2
                exact absurd (hc1.trans hc2.symm) hc
    · rw [if_pos hv]
      constructor
      · intro h
        simp at h
      · rintro ⟨h1, _⟩
        exact absurd h1 hv
  · rintro msg rfl
    rfl
  · rintro v msg rfl rfl
    cases v
    rfl

/-- Witness for C1: equal v2 manifests with equal single-arch content
type compare true; a failed fetch raises `ImageComparisonError`. -/
theorem image_eq_semantics_witness :
    imageEq (.ok (mV2, some SCHEMA2_MANIFEST_MEDIA_TYPE))
        (.ok (mV2, some SCHEMA2_MANIFEST_MEDIA_TYPE)) = .ok true ∧
    imageEq (.error "(500) Internal Server Error")
        (.ok (mV2, some SCHEMA2_MANIFEST_MEDIA_TYPE)) =
      .error (.imageComparisonError "(500) Internal Server Error") := by
  constructor
  · exact ((image_eq_semantics (.ok (mV2, some SCHEMA2_MANIFEST_MEDIA_TYPE))
        (.ok (mV2, some SCHEMA2_MANIFEST_MEDIA_TYPE))).1
      mV2 (some SCHEMA2_MANIFEST_MEDIA_TYPE) mV2 (some SCHEMA2_MANIFEST_MEDIA_TYPE)
      rfl rfl).mpr
      ⟨rfl, by
        rw [if_neg (by decide)]
        exact ⟨SCHEMA2_MANIFEST_MEDIA_TYPE, rfl, rfl, Or.inl ⟨by decide, rfl⟩⟩⟩
  · exact (image_eq_semantics (.error "(500) Internal Server Error")
        (.ok (mV2, some SCHEMA2_MANIFEST_MEDIA_TYPE))).2.1
      "(500) Internal Server Error" rfl

/-- Counterexample to claim C3 as stated, in both clauses where it
diverges from the code. First: on a first page of 51 entries (not
"exactly 50") with a next link present, `_get_tags` does continue to
the next page — it issues a second request and appends the second
page's tags — whereas the claim's exactly-50 continuation rule stops
after the first page. Second: on a next link that is already absolute
but on another host, `_get_tags` still prepends the registry API base
(its check is substring containment, Python `in`, not absoluteness),
so it requests a different URL than the claim's resolution rule. -/
theorem get_tags_counterexample :
    (getTags server51 exampleApi (some "lib") "img" 5 =
       some (tagNames "a" 51 ++ tagNames "b" 12,
         [tagsListUrl exampleApi (some "lib") "img",
          exampleApi ++ "/v2/lib/img/tags/list?n=50&last=a50"]) ∧
     specGetTagsExact server51 exampleApi (some "lib") "img" 5 =
       some (tagNames "a" 51, [tagsListUrl exampleApi (some "lib") "img"])) ∧
    (getTags serverMirror exampleApi (some "lib") "img" 5 =
       some (tagNames "x" 50,
         [tagsListUrl exampleApi (some "lib") "img",
          exampleApi ++ "https://mirror.example.org/v2/lib/img/tags/list?n=50&last=x49"]) ∧
     specGetTagsExact serverMirror exampleApi (some "lib") "img" 5 =
       some (tagNames "x" 50,
         [tagsListUrl exampleApi (some "lib") "img",
          "https://mirror.example.org/v2/lib/img/tags/list?n=50&last=x49"])) := by
  exact ⟨⟨by decide, by decide⟩, ⟨by decide, by decide⟩⟩

/-- Claim C3 (amended): `_get_tags` requests the tags endpoint with page
size 50 (`tagsListUrl` ends in `?n=50`), and for every server and fuel
the traversal equals the spec-side loop that continues to the next page
only while the last page returned AT LEAST 50 entries and a next link
is present (resolving the link against the registry API base when it
does not already contain the base as a substring — the code's Python
`in` check), appending each page's tags in order and
stopping as soon as a page returns fewer than 50 entries or has no next
link; in particular three pages of 50, 50 and 12 entries yield a single
ordered list of 112 tags using exactly 3 requests. -/
theorem get_tags_pagination (server : String → TagsPage) (registryApi : String)
    (repository : Option String) (image : String) (fuel : Nat) :
    getTags server registryApi repository image fuel =
      specGetTagsAtLeast server registryApi repository image fuel ∧
    getTags server3 dockerApi (some "library") "img" 4 =
      some (tagNames "p" 50 ++ tagNames "q" 50 ++ tagNames "r" 12,
        [tagsListUrl dockerApi (some "library") "img",
         dockerApi ++ "/v2/library/img/tags/list?n=50&last=p49",
         dockerApi ++ "/v2/library/img/tags/list?n=50&last=q49"]) ∧
    (tagNames "p" 50 ++ tagNames "q" 50 ++ tagNames "r" 12).length = 112 := by
  refine ⟨?_, by decide, by decide⟩
  unfold getTags specGetTagsAtLeast
  exact getTagsLoop_eq_atLeast server registryApi fuel _ _ _

/-- Claim C4 evidence: a well-formed by-digest reference parses with the
digest set and a null tag, `url_tag` on it fails with the no-tag error,
and a pre-populated digest is returned with zero manifest fetches; but
a trailing `:tag` after the digest does NOT make parsing fail — because
`re.search` is unanchored at the start, the parser instead matches a
later fragment of the string, yielding image=`<the 64 hex chars>`,
tag=`latest`, digest unset. -/
theorem parse_by_digest_and_trailing_tag :
    parseImageUrl ("quay.io/app-sre/x@sha256:" ++ hex64a) =
      some ⟨"docker://", "quay.io", some "app-sre", "x", none,
            some ("sha256:" ++ hex64a)⟩ ∧
    urlTag ⟨"docker://", "quay.io", some "app-sre", "x", none,
            some ("sha256:" ++ hex64a)⟩ = .error "NoTagForImageByDigest" ∧
    digestProperty (some ("sha256:" ++ hex64a)) none =
      (.ok ("sha256:" ++ hex64a), 0) ∧
    parseImageUrl ("quay.io/app-sre/x@sha256:" ++ hex64a ++ ":latest") =
      some ⟨"docker://", "docker.io", some "library", hex64a,
            some "latest", none⟩ := by
  exact ⟨by decide, rfl, rfl, by decide⟩

/-- Claim C5: for every parseable reference string, the defaults are
filled as claimed — scheme `docker://` when absent, registry `docker.io`
when absent, repository `library` exactly when absent with registry
resolved to `docker.io` (otherwise left absent), tag `latest` when
neither tag nor digest appeared — and `parse("memcached")` yields
registry `docker.io`, repository `library`, image `memcached`, tag
`latest`. -/
theorem parse_fills_defaults (s : String) (g : RawMatch) (h : pySearch s = some g) :
    parseImageUrl s = some (fillDefaults g) ∧
    (g.scheme = none → (fillDefaults g).scheme = "docker://") ∧
    (g.registry = none → (fillDefaults g).registry = "docker.io") ∧
    ((fillDefaults g).repository =
      match g.repository with
      | some r => some r
      | none =>
        if (fillDefaults g).registry = "docker.io" then some "library" else none) ∧
    (g.tag = none → g.digest = none → (fillDefaults g).tag = some "latest") ∧
    parseImageUrl "memcached" =
      some ⟨"docker://", "docker.io", some "library", "memcached",
            some "latest", none⟩ := by
  refine ⟨?_, ?_, ?_, ?_, ?_, by decide⟩
  · rw [parseImageUrl, h]; rfl
  · intro hs
    simp [fillDefaults, hs]
  · intro hr
    have hp : g.port = none := pySearch_port_none h hr
    simp [fillDefaults, hr, hp]
  · rfl
  · intro ht hd
    simp [fillDefaults, ht, hd]

/-- Witness for C5 at the reference string `memcached`. -/
theorem parse_fills_defaults_witness :
    parseImageUrl "memcached" =
      some ⟨"docker://", "docker.io", some "library", "memcached",
            some "latest", none⟩ :=
  (parse_fills_defaults "memcached" ⟨none, none, none, none, "memcached", none, none⟩
    (by decide)).2.2.2.2.2

/-- Claim C6 evidence: host-like leading segments (with dots, even
several) are recognized as the registry and a non-host-like leading
segment becomes the repository (`ubi8/python-39`), and image names may
contain dots (`python-3.9`); but a multi-segment image path is NOT
parsed as "first segment = repository, remainder = image": on the
repository's own test reference the parser instead matches a trailing
fragment, dropping the registry and the leading path segments. -/
theorem parse_registry_recognition_and_segments :
    parseImageUrl "registry.example.com/repo01/centos:latest" =
      some ⟨"docker://", "registry.example.com", some "repo01", "centos",
            some "latest", none⟩ ∧
    parseImageUrl "ubi8/python-39" =
      some ⟨"docker://", "docker.io", some "ubi8", "python-39",
            some "latest", none⟩ ∧
    parseImageUrl "python-3.9" =
      some ⟨"docker://", "docker.io", some "library", "python-3.9",
            some "latest", none⟩ ∧
    parseImageUrl
        "quay.io/redhat-user-workloads/trusted-content-tenant/exhort-alpha/exhort:latest" =
      some ⟨"docker://", "docker.io", some "exhort-alpha", "exhort",
            some "latest", none⟩ := by
  exact ⟨by decide, by decide, by decide, by decide⟩

end Sretoolbox
